import Mathlib

/-!
Verification of the incident lifecycle handlers of `dispatch`
(`src/dispatch/incident/views.py`) against the natural-language spec.

The views layer is embedded faithfully; the service layer (`create`,
`update`, `delete`, `get`), the pydantic models and the flow functions are
not in the analysed sources, so they are modelled from the spec where a
property needs them (each such definition says so in its doc comment).
-/

namespace Dispatch

/-- Role types used by `views.py` (`ParticipantRoleType.incident_commander`,
`ParticipantRoleType.reporter`); the spec says the enumeration is closed and
includes at least these two. -/
inductive ParticipantRoleType where
  | incident_commander
  | reporter
deriving Repr, DecidableEq

/-- An identity reference carried by the update payload (the code reads
`incident_in.commander.email` / `incident_in.reporter.email`). -/
structure Individual where
  email : String
deriving Repr, DecidableEq

/-- Tracked incident fields (spec §3: identifier, title, description,
status) plus the reporter identity handed to `create`. -/
structure Incident where
  id : String
  title : String
  description : String
  status : String
  reporter_email : String
deriving Repr, DecidableEq

/-- `IncidentRead`: the fully materialized snapshot produced by
`IncidentRead.from_orm` — a copy of the incident's tracked fields. -/
structure IncidentRead where
  id : String
  title : String
  description : String
  status : String
deriving Repr, DecidableEq

/-- `IncidentRead.from_orm`: materializes an ORM incident into an immutable
snapshot (field-for-field copy). -/
def IncidentRead.from_orm (i : Incident) : IncidentRead :=
  ⟨i.id, i.title, i.description, i.status⟩

/-- `IncidentCreate` payload: the tracked fields supplied at creation. -/
structure IncidentCreate where
  title : String
  description : String
  status : String
deriving Repr, DecidableEq

/-- `IncidentUpdate` payload. `views.py` dereferences `commander.email` and
`reporter.email` unconditionally; the payload model is not in the analysed
sources, so the two identity fields are modelled as optional (an absent
field behaves like Python's `None`). -/
structure IncidentUpdate where
  title : String
  description : String
  status : String
  commander : Option Individual
  reporter : Option Individual
deriving Repr, DecidableEq

/-- A participant-role row (spec §3 `ParticipantRole`): incident id, role
type, assignee identity, and an active flag (supersession keeps the row,
inactive). -/
structure ParticipantRole where
  incident_id : String
  role_type : ParticipantRoleType
  assignee : String
  active : Bool
deriving Repr, DecidableEq

/-- The persistence state seen through the session: an id counter, the
incident table and the append-only role-assignment history. -/
structure Db where
  next_id : Nat
  incidents : List Incident
  roles : List ParticipantRole
deriving Repr, DecidableEq

/-- Service `get`: looks an incident up by id, `none` when the id does not
resolve. Modelled from the spec (`loadIncident(id) -> Incident | NotFound`);
the service module is not in the analysed sources. -/
def get (db : Db) (incident_id : String) : Option Incident :=
  db.incidents.find? (fun i => i.id == incident_id)

/-- Service `create`. Modelled from the spec: the mutation layer creates the
incident record from the payload fields and the reporter identity passed by
the caller; the id comes from the store's counter. -/
def create (db : Db) (reporter_email : String) (incident_in : IncidentCreate) :
    Incident × Db :=
  let inc : Incident :=
    ⟨toString db.next_id, incident_in.title, incident_in.description,
      incident_in.status, reporter_email⟩
  (inc, { db with next_id := db.next_id + 1, incidents := inc :: db.incidents })

/-- Service `update`. Modelled from the spec: applies the tracked payload
fields (title, description, status) to the fetched incident and stores the
result; identities in the payload are handled by the role flows, not here. -/
def update (db : Db) (incident : Incident) (incident_in : IncidentUpdate) :
    Incident × Db :=
  let inc : Incident :=
    { incident with
        title := incident_in.title
        description := incident_in.description
        status := incident_in.status }
  (inc, { db with
            incidents := db.incidents.map (fun i => if i.id == incident.id then inc else i) })

/-- Service `delete`. Modelled from the spec: removes the incident row. -/
def delete (db : Db) (incident_id : String) : Db :=
  { db with incidents := db.incidents.filter (fun i => i.id != incident_id) }

/-- A deferred unit of work handed to `background_tasks.add_task`: the flow
function together with the arguments `views.py` passes it. -/
inductive Task where
  | incident_create_flow (incident_id : String)
  | incident_update_flow (user_email : String) (incident_id : String)
      (previous_incident : IncidentRead)
  | incident_assign_role_flow (user_email : String) (incident_id : String)
      (assignee_email : String) (assignee_role : ParticipantRoleType)
deriving Repr, DecidableEq

/-- Domain errors of the spec's taxonomy (§7) that the flows can raise. -/
inductive DomainError where
  | unknownIncident
  | invalidRole
deriving Repr, DecidableEq

/-- What the handler's caller observes: a returned record, an
`HTTPException`, a `None` body, or an uncaught Python exception
(`attributeError` for a `None` dereference, `domainError` for a domain
error raised synchronously inside the handler). -/
inductive HandlerOutcome where
  | ok (incident : Incident)
  | httpError (status : Nat) (detail : String)
  | noContent
  | raised_attributeError (attr : String)
  | raised_domainError (e : DomainError)
deriving Repr, DecidableEq

/-- Result of one handler invocation: the session state when the handler
finished (or raised), the tasks submitted so far via `add_task`, and the
caller-visible outcome. -/
structure HandlerResult where
  db : Db
  tasks : List Task
  outcome : HandlerOutcome
deriving Repr, DecidableEq

/-- `GET /{incident_id}` (`get_incident` in `views.py`): 404 when the id
does not resolve, otherwise returns the incident. -/
def get_incident (db : Db) (incident_id : String) : HandlerResult :=
  match get db incident_id with
  | none => ⟨db, [], .httpError 404 "The requested incident does not exist."⟩
  | some incident => ⟨db, [], .ok incident⟩

/-- `POST /` (`create_incident` in `views.py`): creates the incident with
`reporter_email = current_user_email`, schedules `incident_create_flow`
with the new incident's id, and returns the incident. -/
def create_incident (db : Db) (incident_in : IncidentCreate)
    (current_user_email : String) : HandlerResult :=
  let (incident, db) := create db current_user_email incident_in
  ⟨db, [.incident_create_flow incident.id], .ok incident⟩

/-- `PUT /{incident_id}` (`update_incident` in `views.py`): 404 when the id
does not resolve; otherwise snapshots the incident, applies the update,
schedules the update flow, the commander assignment and the reporter
assignment in that order, and returns the updated incident. A `None`
commander or reporter in the payload raises `AttributeError` at the point
of dereference, after everything before it already happened. -/
def update_incident (db : Db) (incident_id : String)
    (incident_in : IncidentUpdate) (current_user_email : String) :
    HandlerResult :=
  match get db incident_id with
  | none => ⟨db, [], .httpError 404 "The requested incident does not exist."⟩
  | some incident0 =>
    let previous_incident := IncidentRead.from_orm incident0
    let (incident, db) := update db incident0 incident_in
    let tasks : List Task :=
      [.incident_update_flow current_user_email incident.id previous_incident]
    match incident_in.commander with
    | none => ⟨db, tasks, .raised_attributeError "email"⟩
    | some commander =>
      let tasks := tasks ++
        [.incident_assign_role_flow current_user_email incident.id
          commander.email .incident_commander]
      match incident_in.reporter with
      | none => ⟨db, tasks, .raised_attributeError "email"⟩
      | some reporter =>
        let tasks := tasks ++
          [.incident_assign_role_flow current_user_email incident.id
            reporter.email .reporter]
        ⟨db, tasks, .ok incident⟩

/-- `DELETE /{incident_id}` (`delete_incident` in `views.py`): 404 when the
id does not resolve; otherwise deletes the incident and returns nothing. -/
def delete_incident (db : Db) (incident_id : String) : HandlerResult :=
  match get db incident_id with
  | none => ⟨db, [], .httpError 404 "The requested incident does not exist."⟩
  | some incident => ⟨delete db incident.id, [], .noContent⟩

/-- Modelled from the spec: execution of a scheduled flow task
(`flows.py` is not in the analysed sources). The assignment flow resolves
the role per §4.1 — it fails with `UnknownIncident` when the incident id no
longer resolves, supersedes a differing active holder and appends the new
active assignment; the create/update flows likewise need the incident to
still exist. -/
def runTask (db : Db) : Task → Except DomainError Db
  | .incident_create_flow incident_id =>
    match get db incident_id with
    | none => .error .unknownIncident
    | some _ => .ok db
  | .incident_update_flow _ incident_id _ =>
    match get db incident_id with
    | none => .error .unknownIncident
    | some _ => .ok db
  | .incident_assign_role_flow _ incident_id assignee_email role =>
    match get db incident_id with
    | none => .error .unknownIncident
    | some _ =>
      .ok { db with
              roles :=
                ⟨incident_id, role, assignee_email, true⟩ ::
                  db.roles.map (fun r =>
                    if r.incident_id == incident_id && r.role_type == role
                    then { r with active := false } else r) }

/-- Deferred execution: the handler runs to completion first and only then
are its submitted tasks executed, under an arbitrary task semantics `E`. -/
def handler_then_run (E : Db → Task → Db) (r : HandlerResult) :
    Db × HandlerOutcome :=
  (r.tasks.foldl E r.db, r.outcome)

end Dispatch

namespace Dispatch

/-! Concrete fixtures used by witnesses and counterexamples. -/

def inc1 : Incident := ⟨"1", "t", "d", "active", "bob"⟩

def db1 : Db := ⟨2, [inc1], []⟩

def upd1 : IncidentUpdate := ⟨"t2", "d2", "stable", some ⟨"carol"⟩, some ⟨"dave"⟩⟩

def updNoCommander : IncidentUpdate := ⟨"t2", "d2", "stable", none, some ⟨"dave"⟩⟩

def newIn1 : IncidentCreate := ⟨"t", "d", "active"⟩

/-- C1: when the incident id does not resolve, `get_incident`,
`update_incident` and `delete_incident` each fail synchronously with a 404
("The requested incident does not exist."), the session state is untouched
(no update applied) and no task is submitted. -/
theorem C1_unknown_incident_404 (db : Db) (incident_id : String)
    (incident_in : IncidentUpdate) (em : String)
    (h : get db incident_id = none) :
    get_incident db incident_id =
      ⟨db, [], .httpError 404 "The requested incident does not exist."⟩ ∧
    update_incident db incident_id incident_in em =
      ⟨db, [], .httpError 404 "The requested incident does not exist."⟩ ∧
    delete_incident db incident_id =
      ⟨db, [], .httpError 404 "The requested incident does not exist."⟩ := by
  refine ⟨?_, ?_, ?_⟩ <;> simp [get_incident, update_incident, delete_incident, h]

/-- Witness for C1 at an empty store and id "9". -/
theorem C1_witness :
    get db1 "9" = none ∧
    update_incident db1 "9" upd1 "alice" =
      ⟨db1, [], .httpError 404 "The requested incident does not exist."⟩ :=
  ⟨by decide, (C1_unknown_incident_404 db1 "9" upd1 "alice" (by decide)).2.1⟩

/-- C2: a successful `update_incident` submits exactly three tasks, in this
order: the update (diff) flow, then the commander assignment, then the
reporter assignment — so diffing precedes every role resolution and the
commander precedes the reporter within the invocation. -/
theorem C2_three_tasks_in_order (db : Db) (incident_id : String)
    (incident_in : IncidentUpdate) (em : String) (inc0 : Incident)
    (c r : Individual)
    (h : get db incident_id = some inc0)
    (hc : incident_in.commander = some c)
    (hr : incident_in.reporter = some r) :
    (update_incident db incident_id incident_in em).tasks =
      [.incident_update_flow em inc0.id (IncidentRead.from_orm inc0),
       .incident_assign_role_flow em inc0.id c.email .incident_commander,
       .incident_assign_role_flow em inc0.id r.email .reporter] := by
  simp [update_incident, h, hc, hr, update]

/-- Witness for C2 on a one-incident store. -/
theorem C2_witness :
    (update_incident db1 "1" upd1 "alice").tasks =
      [.incident_update_flow "alice" inc1.id (IncidentRead.from_orm inc1),
       .incident_assign_role_flow "alice" inc1.id "carol" .incident_commander,
       .incident_assign_role_flow "alice" inc1.id "dave" .reporter] :=
  C2_three_tasks_in_order db1 "1" upd1 "alice" inc1 ⟨"carol"⟩ ⟨"dave"⟩
    (by decide) rfl rfl

/-- C3: the snapshot handed to the update flow is the fully materialized
copy (`IncidentRead.from_orm`) of the incident fetched before the update is
applied: it is the first submitted task's argument, it copies the
pre-mutation fields verbatim, and whenever the update changes the title it
differs from the snapshot of the post-mutation state. -/
theorem C3_premutation_snapshot (db : Db) (incident_id : String)
    (incident_in : IncidentUpdate) (em : String) (inc0 : Incident)
    (h : get db incident_id = some inc0) :
    (update_incident db incident_id incident_in em).tasks.head? =
      some (.incident_update_flow em inc0.id (IncidentRead.from_orm inc0)) ∧
    IncidentRead.from_orm inc0 =
      ⟨inc0.id, inc0.title, inc0.description, inc0.status⟩ ∧
    (incident_in.title ≠ inc0.title →
      IncidentRead.from_orm inc0 ≠
        IncidentRead.from_orm (update db inc0 incident_in).1) := by
  refine ⟨?_, rfl, ?_⟩
  · cases hc : incident_in.commander with
    | none => simp [update_incident, h, hc, update]
    | some c =>
      cases hr : incident_in.reporter with
      | none => simp [update_incident, h, hc, hr, update]
      | some r => simp [update_incident, h, hc, hr, update]
  · intro hne heq
    exact hne (congrArg IncidentRead.title heq).symm

/-- Witness for C3 on a one-incident store with a changed title. -/
theorem C3_witness :
    (update_incident db1 "1" upd1 "alice").tasks.head? =
      some (.incident_update_flow "alice" inc1.id (IncidentRead.from_orm inc1)) ∧
    IncidentRead.from_orm inc1 ≠
      IncidentRead.from_orm (update db1 inc1 upd1).1 :=
  ⟨(C3_premutation_snapshot db1 "1" upd1 "alice" inc1 (by decide)).1,
   (C3_premutation_snapshot db1 "1" upd1 "alice" inc1 (by decide)).2.2 (by decide)⟩

end Dispatch

namespace Dispatch

/-- Helper: after replacing the found row by one with the same id, a lookup
for that id finds the replacement. -/
lemma find?_map_if (l : List Incident) (pid : String) (inc0 upd : Incident)
    (hid : upd.id = pid)
    (h : l.find? (fun i => i.id == pid) = some inc0) :
    (l.map (fun i => if i.id == inc0.id then upd else i)).find?
      (fun i => i.id == upd.id) = some upd := by
  have h0 : inc0.id = pid := by simpa using List.find?_some h
  induction l with
  | nil => simp at h
  | cons a t ih =>
    by_cases ha : a.id = pid
    · rw [List.find?_cons_of_pos _ (by simpa using ha)] at h
      have haeq : a = inc0 := by simpa using h
      simp [haeq, h0, hid]
    · rw [List.find?_cons_of_neg _ (by simpa using ha)] at h
      have h1 : ¬(a.id == inc0.id) = true := by simp [h0, ha]
      have h2 : ¬(a.id == upd.id) = true := by simp [hid, ha]
      simp only [List.map_cons, if_neg h1]
      have hstep :
          (a :: List.map (fun i => if (i.id == inc0.id) = true then upd else i) t).find?
              (fun i => i.id == upd.id) =
            (List.map (fun i => if (i.id == inc0.id) = true then upd else i) t).find?
              (fun i => i.id == upd.id) :=
        List.find?_cons_of_neg _ h2
      rw [hstep]
      exact ih h

/-- Helper: the record returned by the `update` service is found again by a
lookup on its id in the post-update store. -/
lemma get_after_update (db : Db) (incident_id : String) (inc0 : Incident)
    (incident_in : IncidentUpdate) (h : get db incident_id = some inc0) :
    get (update db inc0 incident_in).2 (update db inc0 incident_in).1.id =
      some (update db inc0 incident_in).1 := by
  have h0 : inc0.id = incident_id := by simpa using List.find?_some h
  exact find?_map_if db.incidents incident_id inc0 _ (by simp [update, h0]) h

/-- C4 counterexample: a concrete run where `update_incident` succeeds
(the caller observes the updated incident), a Role Resolver task was
scheduled, and that task's later execution raises `UnknownIncident` — yet
the caller's outcome is not a domain error. Domain errors of the deferred
flows are therefore not propagated synchronously to the caller of update,
contrary to the claim. -/
theorem C4_counterexample :
    (update_incident db1 "1" upd1 "alice").outcome =
      .ok ⟨"1", "t2", "d2", "stable", "bob"⟩ ∧
    Task.incident_assign_role_flow "alice" "1" "carol" .incident_commander ∈
      (update_incident db1 "1" upd1 "alice").tasks ∧
    runTask (delete (update_incident db1 "1" upd1 "alice").db "1")
        (.incident_assign_role_flow "alice" "1" "carol" .incident_commander) =
      .error .unknownIncident ∧
    (update_incident db1 "1" upd1 "alice").outcome ≠
      .raised_domainError .unknownIncident := by
  refine ⟨rfl, ?_, rfl, by decide⟩
  simp [update_incident, db1, inc1, upd1, update, get]

/-- C4 amended: the three flow tasks run outside the handler, so a domain
error raised by the State Differ or Role Resolver is never observed by the
caller of `update_incident` — the caller-visible outcome is fixed when
scheduling finishes, independently of any task-execution semantics, and is
never a domain error. Only the synchronous incident-existence check (404)
and the payload dereference fail in the caller's view. -/
theorem C4_no_synchronous_domain_error (db : Db) (incident_id : String)
    (incident_in : IncidentUpdate) (em : String) (E : Db → Task → Db)
    (e : DomainError) :
    (handler_then_run E (update_incident db incident_id incident_in em)).2 =
      (update_incident db incident_id incident_in em).outcome ∧
    (update_incident db incident_id incident_in em).outcome ≠
      .raised_domainError e := by
  refine ⟨rfl, ?_⟩
  cases h : get db incident_id with
  | none => simp [update_incident, h]
  | some inc0 =>
    cases hc : incident_in.commander with
    | none => simp [update_incident, h, hc]
    | some c =>
      cases hr : incident_in.reporter with
      | none => simp [update_incident, h, hc, hr]
      | some r => simp [update_incident, h, hc, hr]

/-- C5: for both `create_incident` and `update_incident` the caller-visible
outcome is fixed once every task is submitted: it is unchanged under any
task-execution semantics `E`, the handler itself performs no role
assignment (the role history is untouched), and a successful outcome
returns exactly the committed record (looking its id up in the handler's
store yields it). -/
theorem C5_outcome_fixed_at_scheduling (E : Db → Task → Db) (db : Db)
    (incident_id : String) (newIn : IncidentCreate)
    (incident_in : IncidentUpdate) (em : String) :
    (handler_then_run E (create_incident db newIn em)).2 =
      (create_incident db newIn em).outcome ∧
    (handler_then_run E (update_incident db incident_id incident_in em)).2 =
      (update_incident db incident_id incident_in em).outcome ∧
    (create_incident db newIn em).db.roles = db.roles ∧
    (update_incident db incident_id incident_in em).db.roles = db.roles ∧
    (∀ inc, (create_incident db newIn em).outcome = .ok inc →
      get (create_incident db newIn em).db inc.id = some inc) ∧
    (∀ inc, (update_incident db incident_id incident_in em).outcome = .ok inc →
      get (update_incident db incident_id incident_in em).db inc.id = some inc) := by
  refine ⟨rfl, rfl, rfl, ?_, ?_, ?_⟩
  · cases h : get db incident_id with
    | none => simp [update_incident, h]
    | some inc0 =>
      cases hc : incident_in.commander with
      | none => simp [update_incident, h, hc, update]
      | some c =>
        cases hr : incident_in.reporter with
        | none => simp [update_incident, h, hc, hr, update]
        | some r => simp [update_incident, h, hc, hr, update]
  · intro inc hok
    have : (create db em newIn).1 = inc := by
      simpa [create_incident] using hok
    subst this
    simp [create_incident, create, get]
  · intro inc hok
    cases h : get db incident_id with
    | none => simp [update_incident, h] at hok
    | some inc0 =>
      cases hc : incident_in.commander with
      | none => simp [update_incident, h, hc] at hok
      | some c =>
        cases hr : incident_in.reporter with
        | none => simp [update_incident, h, hc, hr] at hok
        | some r =>
          have hinc : (update db inc0 incident_in).1 = inc := by
            simpa [update_incident, h, hc, hr] using hok
          have hdb : (update_incident db incident_id incident_in em).db =
              (update db inc0 incident_in).2 := by
            simp [update_incident, h, hc, hr]
          rw [hdb, ← hinc]
          exact get_after_update db incident_id inc0 incident_in h

/-- Witness for C5: the record returned by a concrete successful update is
found in the committed store. -/
theorem C5_witness :
    (update_incident db1 "1" upd1 "alice").outcome =
      .ok ⟨"1", "t2", "d2", "stable", "bob"⟩ ∧
    get (update_incident db1 "1" upd1 "alice").db
        (Incident.id ⟨"1", "t2", "d2", "stable", "bob"⟩) =
      some ⟨"1", "t2", "d2", "stable", "bob"⟩ :=
  ⟨rfl,
   (C5_outcome_fixed_at_scheduling (fun d _ => d) db1 "1" newIn1 upd1
      "alice").2.2.2.2.2 ⟨"1", "t2", "d2", "stable", "bob"⟩ rfl⟩

/-- C6: `create_incident` passes the creating caller's identity as the
reporter, schedules exactly one task — the create flow carrying only the
new incident's id — and returns the created record; in particular no diff
task appears on the creation path. -/
theorem C6_create_reporter_and_single_task (db : Db) (newIn : IncidentCreate)
    (em : String) :
    (create_incident db newIn em).tasks =
      [.incident_create_flow (create db em newIn).1.id] ∧
    (create_incident db newIn em).outcome = .ok (create db em newIn).1 ∧
    (create db em newIn).1.reporter_email = em :=
  ⟨rfl, rfl, rfl⟩

/-- C7: on a successful update, the second and third submitted tasks are
the two role assignments with exactly the assign contract's arguments: the
caller's identity as invoker, the incident's id, the assignee email from
the payload, and the role type from the closed enumeration
(`incident_commander`, then `reporter`). -/
theorem C7_assign_task_arguments (db : Db) (incident_id : String)
    (incident_in : IncidentUpdate) (em : String) (inc0 : Incident)
    (c r : Individual)
    (h : get db incident_id = some inc0)
    (hc : incident_in.commander = some c)
    (hr : incident_in.reporter = some r) :
    (update_incident db incident_id incident_in em).tasks[1]? =
      some (.incident_assign_role_flow em inc0.id c.email .incident_commander) ∧
    (update_incident db incident_id incident_in em).tasks[2]? =
      some (.incident_assign_role_flow em inc0.id r.email .reporter) := by
  constructor <;> simp [update_incident, h, hc, hr, update]

/-- Witness for C7 on a one-incident store. -/
theorem C7_witness :
    (update_incident db1 "1" upd1 "alice").tasks[1]? =
      some (.incident_assign_role_flow "alice" inc1.id "carol"
        .incident_commander) ∧
    (update_incident db1 "1" upd1 "alice").tasks[2]? =
      some (.incident_assign_role_flow "alice" inc1.id "dave" .reporter) :=
  C7_assign_task_arguments db1 "1" upd1 "alice" inc1 ⟨"carol"⟩ ⟨"dave"⟩
    (by decide) rfl rfl

end Dispatch

namespace Dispatch

/-- C9: `update_incident` dereferences `incident_in.commander.email` and
`incident_in.reporter.email` unconditionally, so when either payload field
is absent the call raises `AttributeError` — and non-atomically: the
incident update has already been applied to the store and the update
(diff) task has already been submitted. -/
theorem C9_missing_identity_fails_nonatomically (db : Db)
    (incident_id : String) (incident_in : IncidentUpdate) (em : String)
    (inc0 : Incident)
    (h : get db incident_id = some inc0)
    (hn : incident_in.commander = none ∨ incident_in.reporter = none) :
    (update_incident db incident_id incident_in em).outcome =
      .raised_attributeError "email" ∧
    (update_incident db incident_id incident_in em).db =
      (update db inc0 incident_in).2 ∧
    (update_incident db incident_id incident_in em).tasks.head? =
      some (.incident_update_flow em inc0.id (IncidentRead.from_orm inc0)) := by
  cases hc : incident_in.commander with
  | none => refine ⟨?_, ?_, ?_⟩ <;> simp [update_incident, h, hc, update]
  | some c =>
    have hr : incident_in.reporter = none := by
      rcases hn with h1 | h1
      · rw [hc] at h1; exact absurd h1 (by simp)
      · exact h1
    refine ⟨?_, ?_, ?_⟩ <;> simp [update_incident, h, hc, hr, update]

/-- Witness for C9: a payload without a commander, on a one-incident
store. -/
theorem C9_witness :
    (update_incident db1 "1" updNoCommander "alice").outcome =
      .raised_attributeError "email" ∧
    (update_incident db1 "1" updNoCommander "alice").db =
      (update db1 inc1 updNoCommander).2 :=
  ⟨(C9_missing_identity_fails_nonatomically db1 "1" updNoCommander "alice"
      inc1 (by decide) (Or.inl rfl)).1,
   (C9_missing_identity_fails_nonatomically db1 "1" updNoCommander "alice"
      inc1 (by decide) (Or.inl rfl)).2.1⟩

/-- C10: `delete_incident` submits no task at all; on an existing incident
its only effects are the lookup and the delete call — the store change is
exactly `delete` and the role history is untouched. -/
theorem C10_delete_schedules_no_task (db : Db) (incident_id : String) :
    (delete_incident db incident_id).tasks = [] ∧
    (delete_incident db incident_id).db.roles = db.roles ∧
    (∀ inc, get db incident_id = some inc →
      (delete_incident db incident_id).db = delete db inc.id) := by
  cases h : get db incident_id with
  | none => refine ⟨?_, ?_, ?_⟩ <;> simp [delete_incident, h]
  | some i =>
    refine ⟨?_, ?_, ?_⟩
    · simp [delete_incident, h]
    · simp [delete_incident, h, delete]
    · intro inc hi
      have hinj : i = inc := Option.some.inj hi
      subst hinj
      simp [delete_incident, h]

/-- Witness for C10 on a one-incident store. -/
theorem C10_witness :
    (delete_incident db1 "1").tasks = [] ∧
    (delete_incident db1 "1").db = delete db1 inc1.id :=
  ⟨(C10_delete_schedules_no_task db1 "1").1,
   (C10_delete_schedules_no_task db1 "1").2.2 inc1 (by decide)⟩

end Dispatch
